import Mathlib

/-!
Verification of the lead-management dashboard (src/app.py) against its
specification. The data model, loader, edit reconciler, persistence flow and
dashboard KPI computation are embedded shallowly: a pandas DataFrame becomes a
list of keyed rows together with the list of columns present; `DataFrame.update`
follows pandas semantics (align on key and column, transfer only non-null
values); the loader `initialize_data` follows app.py lines 99-123 step by step,
including the exception path that yields an empty table.
-/

namespace HSRLeads

/-- Global settings of app.py (lines 22-26). -/
def STATUS_OPTIONS : List String :=
  ["New", "Contacted", "Qualified", "Lost Sale", "Sold", "Disqualified", "Unreachable"]

def INTEREST_OPTIONS : List String :=
  ["Interested", "Holding", "Not Interested", "N/A"]

def SOURCE_OPTIONS : List String :=
  ["Google Ads", "Facebook", "Instagram", "LinkedIn", "Websites", "Offline Events", "Other"]

def DEFAULT_OWNER : String := "Unassigned"

/-- The columns of the lead table (expected_columns, app.py lines 101-105). -/
inductive Col where
  | leadID | fullName | location | status | phone | email
  | leadSource | createdDate | interestStatus | notes
  | engagementScore | owner
deriving DecidableEq, Repr

def expected_columns : List Col :=
  [.leadID, .fullName, .location, .status, .phone, .email,
   .leadSource, .createdDate, .interestStatus, .notes,
   .engagementScore, .owner]

/-- A cell value: LeadID cells are integers, all other cells are text. -/
inductive Val where
  | i (v : Int)
  | s (v : String)
deriving DecidableEq, Repr

/-- One record of the lead table. A `none` field is a null (NaN) cell. -/
structure Row where
  leadID : Option Int := none
  fullName : Option String := none
  location : Option String := none
  status : Option String := none
  phone : Option String := none
  email : Option String := none
  leadSource : Option String := none
  createdDate : Option String := none
  interestStatus : Option String := none
  notes : Option String := none
  engagementScore : Option String := none
  owner : Option String := none
deriving DecidableEq, Repr

/-- Read one cell of a row. -/
def Row.get (r : Row) : Col → Option Val
  | .leadID => r.leadID.map Val.i
  | .fullName => r.fullName.map Val.s
  | .location => r.location.map Val.s
  | .status => r.status.map Val.s
  | .phone => r.phone.map Val.s
  | .email => r.email.map Val.s
  | .leadSource => r.leadSource.map Val.s
  | .createdDate => r.createdDate.map Val.s
  | .interestStatus => r.interestStatus.map Val.s
  | .notes => r.notes.map Val.s
  | .engagementScore => r.engagementScore.map Val.s
  | .owner => r.owner.map Val.s

/-- A pandas DataFrame indexed by LeadID: the list of columns present and the
keyed rows in order. -/
structure DataFrame where
  cols : List Col
  rows : List (Int × Row)
deriving DecidableEq, Repr

def DataFrame.keys (df : DataFrame) : List Int := df.rows.map Prod.fst

/-- Index-aligned row lookup (first row whose key matches). -/
def findRow (df : DataFrame) (k : Int) : Option Row :=
  (df.rows.find? (fun p => decide (p.1 = k))).map Prod.snd

/-- Merge of one cell under pandas update semantics: the other frame's value
overwrites only when the column participates (`w`) and the value is non-null. -/
def mo (w : Bool) (a b : Option α) : Option α :=
  if w && b.isSome then b else a

/-- Merge one aligned row: for each column present in both frames, take the
edited row's value when it is non-null, otherwise keep the original's. -/
def updateRow (sc oc : List Col) (r r' : Row) : Row where
  leadID := mo (decide (Col.leadID ∈ sc ∧ Col.leadID ∈ oc)) r.leadID r'.leadID
  fullName := mo (decide (Col.fullName ∈ sc ∧ Col.fullName ∈ oc)) r.fullName r'.fullName
  location := mo (decide (Col.location ∈ sc ∧ Col.location ∈ oc)) r.location r'.location
  status := mo (decide (Col.status ∈ sc ∧ Col.status ∈ oc)) r.status r'.status
  phone := mo (decide (Col.phone ∈ sc ∧ Col.phone ∈ oc)) r.phone r'.phone
  email := mo (decide (Col.email ∈ sc ∧ Col.email ∈ oc)) r.email r'.email
  leadSource := mo (decide (Col.leadSource ∈ sc ∧ Col.leadSource ∈ oc)) r.leadSource r'.leadSource
  createdDate := mo (decide (Col.createdDate ∈ sc ∧ Col.createdDate ∈ oc)) r.createdDate r'.createdDate
  interestStatus := mo (decide (Col.interestStatus ∈ sc ∧ Col.interestStatus ∈ oc)) r.interestStatus r'.interestStatus
  notes := mo (decide (Col.notes ∈ sc ∧ Col.notes ∈ oc)) r.notes r'.notes
  engagementScore := mo (decide (Col.engagementScore ∈ sc ∧ Col.engagementScore ∈ oc)) r.engagementScore r'.engagementScore
  owner := mo (decide (Col.owner ∈ sc ∧ Col.owner ∈ oc)) r.owner r'.owner

/-- pandas DataFrame.update: align on the LeadID index, and for every key of
self that also appears in other, overwrite the non-null cells of other's row in
the columns shared by both frames. Rows and columns of self keep their order. -/
def DataFrame.update (self other : DataFrame) : DataFrame where
  cols := self.cols
  rows := self.rows.map (fun p =>
    match findRow other p.1 with
    | none => p
    | some r' => (p.1, updateRow self.cols other.cols p.2 r'))

theorem mo_map (f : α → β) (w : Bool) (a b : Option α) :
    (mo w a b).map f = mo w (a.map f) (b.map f) := by
  cases b <;> cases w <;> simp [mo]

theorem updateRow_get (sc oc : List Col) (r r' : Row) (c : Col) :
    (updateRow sc oc r r').get c =
      mo (decide (c ∈ sc ∧ c ∈ oc)) (r.get c) (r'.get c) := by
  cases c <;> simp only [updateRow, Row.get, mo_map]

theorem mo_eq_ite (P : Prop) [Decidable P] (a b : Option α) :
    mo (decide P) a b = if P ∧ b.isSome then b else a := by
  by_cases hP : P <;> cases b <;> simp [mo, hP]

theorem update_rows_getElem (self other : DataFrame) (i : Nat) :
    (self.update other).rows[i]? = self.rows[i]?.map (fun p =>
      match findRow other p.1 with
      | none => p
      | some r' => (p.1, updateRow self.cols other.cols p.2 r')) := by
  simp [DataFrame.update]

theorem findRow_eq_none_iff (df : DataFrame) (k : Int) :
    findRow df k = none ↔ k ∉ df.keys := by
  constructor
  · intro h hk
    rcases List.mem_map.mp hk with ⟨p, hp, hpk⟩
    have hfind : df.rows.find? (fun p => decide (p.1 = k)) = none := by
      cases hf : df.rows.find? (fun p => decide (p.1 = k)) with
      | none => rfl
      | some q => simp [findRow, hf] at h
    have := List.find?_eq_none.mp hfind p hp
    simp [hpk] at this
  · intro h
    have hfind : df.rows.find? (fun p => decide (p.1 = k)) = none := by
      apply List.find?_eq_none.mpr
      intro p hp
      simp only [decide_eq_true_eq]
      intro hpk
      exact h (List.mem_map.mpr ⟨p, hp, hpk⟩)
    simp [findRow, hfind]

/-! ## Data initialization (initialize_data, app.py lines 99-123) -/

/-- The raw table produced by read_csv before normalization: which columns the
file had, and the rows with null cells for blank fields. -/
structure RawTable where
  cols : List Col
  rows : List Row
deriving DecidableEq, Repr

/-- pd.to_datetime(..., errors='coerce') on one row: the CreatedDate cell is
re-parsed by `toDT`, parse failures becoming null (app.py line 111). -/
def normalizeRow (toDT : String → Option String) (r : Row) : Row :=
  { r with createdDate := r.createdDate.bind toDT }

/-- Fill one of the three defaultable columns on one row (app.py line 115). -/
def Row.fillField (c : Col) (d : String) (r : Row) : Row :=
  match c with
  | .owner => { r with owner := some (r.owner.getD d) }
  | .leadSource => { r with leadSource := some (r.leadSource.getD d) }
  | .interestStatus => { r with interestStatus := some (r.interestStatus.getD d) }
  | _ => r

/-- df[col] = default when the column is absent, then df[col].fillna(default)
(app.py lines 112-115, one column). -/
def fillCol (c : Col) (d : String) (t : RawTable) : RawTable where
  cols := if c ∈ t.cols then t.cols else t.cols ++ [c]
  rows := t.rows.map (Row.fillField c d)

/-- The loop of app.py lines 112-115 over (Owner, LeadSource, InterestStatus). -/
def fill_defaults (t : RawTable) : RawTable :=
  fillCol .interestStatus "N/A" (fillCol .leadSource "Other" (fillCol .owner DEFAULT_OWNER t))

/-- df.insert(0, 'LeadID', range(1, 1 + len(df))): row i gets LeadID i+1. -/
def assignIds (rows : List Row) : List Row :=
  rows.enum.map (fun p => { p.2 with leadID := some ((p.1 : Int) + 1) })

/-- The dropna(subset=['FullName', 'Status']) keep-condition (app.py line 118). -/
def dropKeep (r : Row) : Bool :=
  r.fullName.isSome && r.status.isSome

/-- pd.DataFrame(): no columns, no rows (app.py line 122). -/
def emptyDF : DataFrame := ⟨[], []⟩

/-- initialize_data (app.py lines 99-123). The input is the outcome of reading
the backing store: Except.error for a read_csv parse failure, Except.ok with the
parsed raw table otherwise (a missing or empty file yields the raw table with
the expected columns and no rows, app.py lines 107-110). Returns the resulting
table together with the surfaced error message, if any. Exception paths:
a missing CreatedDate column (line 111 raises KeyError), and df.insert of
LeadID when the column already exists but holds nulls (line 117 raises
ValueError); both are caught at line 120 and yield pd.DataFrame(). -/
def initialize_data (toDT : String → Option String) (store : Except String RawTable) :
    DataFrame × Option String :=
  match store with
  | .error e => (emptyDF, some ("Error initializing data: " ++ e))
  | .ok raw =>
    if Col.createdDate ∈ raw.cols then
      let t1 : RawTable := ⟨raw.cols, raw.rows.map (normalizeRow toDT)⟩
      let t2 := fill_defaults t1
      if Col.leadID ∈ t2.cols then
        if t2.rows.any (fun r => r.leadID.isNone) then
          (emptyDF, some "Error initializing data: cannot insert LeadID, already exists")
        else
          let kept := t2.rows.filter dropKeep
          (⟨t2.cols, kept.map (fun r => (r.leadID.getD 0, r))⟩, none)
      else
        let kept := (assignIds t2.rows).filter dropKeep
        (⟨Col.leadID :: t2.cols, kept.map (fun r => (r.leadID.getD 0, r))⟩, none)
    else
      (emptyDF, some "Error initializing data: CreatedDate")

/-! ## Persistence and edit reconciliation (app.py lines 132-144, 294-295) -/

/-- Observable side effects of the save / reconcile flow. -/
inductive Event where
  | saveAttempt (df : DataFrame)
  | toast (msg : String)
  | errorShown (msg : String)
  | rerun
deriving DecidableEq, Repr

/-- The in-memory session state: st.session_state['df_leads']. -/
structure AppState where
  df_leads : DataFrame
deriving DecidableEq, Repr

/-- save_data (app.py lines 132-137). `ioError` is the I/O outcome of
df.to_csv: none on success, some message when the write raises. -/
def save_data (ioError : Option String) (df : DataFrame) : List Event :=
  match ioError with
  | none => [.saveAttempt df, .toast "Changes saved successfully."]
  | some e => [.saveAttempt df, .errorShown ("Save failed: " ++ e)]

/-- update_main_dataframe (app.py lines 139-144): merge the edited rows into a
copy of the original, store the merged table in the session state, save it,
then rerun. Note the session state is replaced before save_data runs. -/
def update_main_dataframe (ioError : Option String) (edited_df original_df : DataFrame)
    (_st : AppState) : AppState × List Event :=
  let df_to_update := original_df.update edited_df
  (⟨df_to_update⟩, save_data ioError df_to_update ++ [.rerun])

/-- The commit step of render_lead_listing (app.py lines 294-295): reconcile
only when the edited table differs from the filtered slice shown in the grid. -/
def render_lead_listing_commit (ioError : Option String)
    (edited_df df_filtered df : DataFrame) (st : AppState) : AppState × List Event :=
  if edited_df = df_filtered then (st, [])
  else update_main_dataframe ioError edited_df df st

/-! ## Dashboard KPIs (render_overall_dashboard, app.py lines 157-162) -/

structure DashboardKPIs where
  total_leads : Nat
  contacted : Nat
  interested : Nat
  qualified : Nat
  sold : Nat
  conversion_rate : Rat
deriving DecidableEq, Repr

/-- len(df[df['Status'] == s]). -/
def countStatus (df : DataFrame) (s : String) : Nat :=
  (df.rows.filter (fun p => decide (p.2.status = some s))).length

/-- The KPI block of render_overall_dashboard (app.py lines 157-162). -/
def render_overall_dashboard_kpis (df : DataFrame) : DashboardKPIs :=
  let total_leads := df.rows.length
  let contacted := countStatus df "Contacted"
  let interested := (df.rows.filter (fun p => decide (p.2.interestStatus = some "Interested"))).length
  let qualified := countStatus df "Qualified"
  let sold := countStatus df "Sold"
  { total_leads, contacted, interested, qualified, sold,
    conversion_rate := if total_leads ≠ 0 then ((qualified : Rat) / (total_leads : Rat)) * 100 else 0 }

/-! ## Concrete example data -/

def exRowAlice : Row :=
  { leadID := some 1, fullName := some "Alice", location := some "Pune",
    status := some "New", phone := some "111", email := some "a",
    leadSource := some "Facebook", createdDate := some "2024-01-01",
    interestStatus := some "N/A", notes := some "first",
    engagementScore := some "40", owner := some "Sam" }

def exRowBob : Row :=
  { leadID := some 2, fullName := some "Bob", location := some "Goa",
    status := some "New", phone := some "222", email := some "b",
    leadSource := some "Google Ads", createdDate := some "2024-02-01",
    interestStatus := some "Holding", notes := some "second",
    engagementScore := some "70", owner := some "Kim" }

def exOrig : DataFrame := ⟨expected_columns, [(1, exRowAlice), (2, exRowBob)]⟩

/-- An edited slice that changes only Bob's Status. -/
def exEditedStatus : DataFrame :=
  ⟨expected_columns, [(2, { exRowBob with status := some "Qualified" })]⟩

/-- exOrig with only Bob's Status cell changed. -/
def exMergedStatus : DataFrame :=
  ⟨expected_columns, [(1, exRowAlice), (2, { exRowBob with status := some "Qualified" })]⟩

/-- An edited slice whose Notes cell for Bob is null. -/
def exEditedNull : DataFrame :=
  ⟨expected_columns, [(2, { exRowBob with status := some "Qualified", notes := none })]⟩

/-- A store whose LeadID column exists but one record lacks its value. -/
def exRawPartialId : RawTable :=
  ⟨[.leadID, .fullName, .status, .createdDate],
   [{ leadID := some 7, fullName := some "A", status := some "New" },
    { fullName := some "B", status := some "New" }]⟩

/-- A store with a duplicated pre-existing LeadID. -/
def exRawDupIds : RawTable :=
  ⟨[.leadID, .fullName, .status, .createdDate],
   [{ leadID := some 5, fullName := some "A", status := some "New" },
    { leadID := some 5, fullName := some "B", status := some "New" }]⟩

/-- A store without a LeadID column whose first record lacks FullName. -/
def exRawDropped : RawTable :=
  ⟨[.fullName, .status, .createdDate],
   [{ status := some "New" }, { fullName := some "B", status := some "New" }]⟩

/-- A store without a LeadID column and with two complete records. -/
def exRawClean : RawTable :=
  ⟨[.fullName, .status, .createdDate],
   [{ fullName := some "A", status := some "New" },
    { fullName := some "B", status := some "Contacted" }]⟩

/-- The first row of the table loaded from exRawClean. -/
def exLoadedRow : Int × Row :=
  (1, { leadID := some 1, fullName := some "A", status := some "New",
        leadSource := some "Other", interestStatus := some "N/A",
        owner := some DEFAULT_OWNER })

/-- The KPI scenario table: 4 rows with Status New, Contacted, Qualified, Sold. -/
def exKpiDF : DataFrame :=
  ⟨expected_columns,
   [(1, { leadID := some 1, fullName := some "a", status := some "New" }),
    (2, { leadID := some 2, fullName := some "b", status := some "Contacted" }),
    (3, { leadID := some 3, fullName := some "c", status := some "Qualified" }),
    (4, { leadID := some 4, fullName := some "d", status := some "Sold" })]⟩

/-! ## Claims about the edit reconciler -/

/-- C1: reconciliation overwrites, for each row key present in the edited
table, only that row's fields in a copy of the original, column-wise by key
(columns absent from the edited table untouched, and by pandas update
semantics a cell is overwritten exactly when the column is shared and the
edited value is non-null), while every row whose key is absent from the edited
table is left byte-identical; in particular, editing one row's Status changes
only that cell. -/
theorem update_frame_effect (orig edited : DataFrame)
    (hsub : ∀ k ∈ edited.keys, k ∈ orig.keys) :
    ((orig.update edited).cols = orig.cols ∧
      (orig.update edited).rows.length = orig.rows.length) ∧
    (∀ (i : Nat) (p : Int × Row), orig.rows[i]? = some p → p.1 ∉ edited.keys →
      (orig.update edited).rows[i]? = some p) ∧
    (∀ (i : Nat) (p : Int × Row) (r' : Row),
      orig.rows[i]? = some p → findRow edited p.1 = some r' →
      ∃ q, (orig.update edited).rows[i]? = some (p.1, q) ∧
        ∀ c, q.get c =
          if (c ∈ orig.cols ∧ c ∈ edited.cols) ∧ (r'.get c).isSome
          then r'.get c else p.2.get c) ∧
    exOrig.update exEditedStatus = exMergedStatus := by
  refine ⟨⟨rfl, by simp [DataFrame.update]⟩, ?_, ?_, by decide⟩
  · intro i p hp hk
    rw [update_rows_getElem, hp]
    simp [(findRow_eq_none_iff edited p.1).mpr hk]
  · intro i p r' hp hf
    rw [update_rows_getElem, hp]
    refine ⟨updateRow orig.cols edited.cols p.2 r', by simp [hf], ?_⟩
    intro c
    rw [updateRow_get, mo_eq_ite]

theorem update_frame_effect_witness :
    exOrig.update exEditedStatus = exMergedStatus :=
  (update_frame_effect exOrig exEditedStatus (by decide)).2.2.2

/-- C10: a field whose value in the edited table is null is not written during
reconciliation: pandas update transfers only non-null values, so the
original's cell is kept for that key and column. -/
theorem update_skips_null_cells (orig edited : DataFrame) :
    ∀ (i : Nat) (p : Int × Row) (r' : Row) (c : Col),
      orig.rows[i]? = some p → findRow edited p.1 = some r' →
      r'.get c = none →
      ∃ q, (orig.update edited).rows[i]? = some (p.1, q) ∧ q.get c = p.2.get c := by
  intro i p r' c hp hf hnull
  refine ⟨updateRow orig.cols edited.cols p.2 r', ?_, ?_⟩
  · rw [update_rows_getElem, hp]
    simp [hf]
  · rw [updateRow_get, hnull]
    simp [mo]

theorem update_skips_null_cells_witness :
    ∃ q, (exOrig.update exEditedNull).rows[1]? = some (2, q) ∧
      q.get Col.notes = exRowBob.get Col.notes :=
  update_skips_null_cells exOrig exEditedNull 1 (2, exRowBob)
    { exRowBob with status := some "Qualified", notes := none } Col.notes
    (by decide) (by decide) (by decide)

/-- C2: if the edited table is field-for-field identical to the filtered slice
offered for editing, no write, no persistence call and no table mutation or
refresh occurs: the commit step returns the state unchanged with no events. -/
theorem listing_noop_no_commit (ioError : Option String)
    (edited filtered df : DataFrame) (st : AppState) (h : edited = filtered) :
    render_lead_listing_commit ioError edited filtered df st = (st, []) := by
  simp [render_lead_listing_commit, h]

theorem listing_noop_no_commit_witness :
    render_lead_listing_commit none exOrig exOrig exOrig ⟨exOrig⟩ = (⟨exOrig⟩, []) :=
  listing_noop_no_commit none exOrig exOrig exOrig ⟨exOrig⟩ rfl

/-- C3 counterexample: with a failing save, the session table does not stay at
the prior table — it has been replaced by the merged table — even though the
error is surfaced. This refutes the claim that the in-memory table is left
unchanged on an I/O error. -/
theorem save_failure_state_changed_cex :
    (update_main_dataframe (some "disk full") exEditedStatus exOrig ⟨exOrig⟩).1 ≠ ⟨exOrig⟩ ∧
    Event.errorShown "Save failed: disk full" ∈
      (update_main_dataframe (some "disk full") exEditedStatus exOrig ⟨exOrig⟩).2 := by
  decide

/-- C3 amended: on an I/O error during save, an error is surfaced to the user
and the failed save is attempted exactly once (not retried automatically), but
the in-memory session table has already been replaced by the merged table
before the save runs, so the merged table — not the prior one — remains in
memory. -/
theorem save_failure_surfaces_error_keeps_merged (e : String)
    (edited orig : DataFrame) (st : AppState) :
    (update_main_dataframe (some e) edited orig st).1.df_leads = orig.update edited ∧
    (update_main_dataframe (some e) edited orig st).2 =
      [.saveAttempt (orig.update edited), .errorShown ("Save failed: " ++ e), .rerun] := by
  exact ⟨rfl, rfl⟩

/-! ## Claims about the loader -/

/-- C4: evaluation at the failing input. On a store whose LeadID column exists
but where one record lacks its LeadID, df.insert raises (the column already
exists), the catch-all returns pd.DataFrame(), and the load ends with an empty
table and an error instead of reassigning dense IDs as intended. -/
theorem load_partial_leadid_error_eval :
    initialize_data some (.ok exRawPartialId) =
      (emptyDF, some "Error initializing data: cannot insert LeadID, already exists") := by
  decide

/-- C8: any parse error during store creation and parsing yields an empty
table (no record data) together with a surfaced error message, and
initialize_data returns normally with that empty table. -/
theorem load_parse_error_yields_empty_table (toDT : String → Option String) (e : String) :
    initialize_data toDT (.error e) = (emptyDF, some ("Error initializing data: " ++ e)) := rfl

/-! ## Loader pipeline lemmas -/

/-- One row after to_datetime and the three default fills. -/
def normalizeFill (toDT : String → Option String) (r : Row) : Row :=
  Row.fillField .interestStatus "N/A"
    (Row.fillField .leadSource "Other"
      (Row.fillField .owner DEFAULT_OWNER (normalizeRow toDT r)))

theorem fill_defaults_norm_rows (toDT : String → Option String) (raw : RawTable) :
    (fill_defaults ⟨raw.cols, raw.rows.map (normalizeRow toDT)⟩).rows
      = raw.rows.map (normalizeFill toDT) := by
  simp only [fill_defaults, fillCol, List.map_map]
  rfl

theorem fillCol_cols_mem (c : Col) (d : String) (t : RawTable) (c' : Col) (h : c' ≠ c) :
    c' ∈ (fillCol c d t).cols ↔ c' ∈ t.cols := by
  simp only [fillCol]
  split
  · exact Iff.rfl
  · simp [h]

theorem fillCol_cols_self (c : Col) (d : String) (t : RawTable) :
    c ∈ (fillCol c d t).cols := by
  simp only [fillCol]
  split
  · assumption
  · simp

theorem fillCol_cols_mono (c : Col) (d : String) (t : RawTable) (c' : Col)
    (h : c' ∈ t.cols) : c' ∈ (fillCol c d t).cols := by
  simp only [fillCol]
  split
  · exact h
  · simp [h]

theorem leadID_mem_fill_defaults (t : RawTable) :
    Col.leadID ∈ (fill_defaults t).cols ↔ Col.leadID ∈ t.cols := by
  simp only [fill_defaults]
  rw [fillCol_cols_mem _ _ _ _ (by decide), fillCol_cols_mem _ _ _ _ (by decide),
    fillCol_cols_mem _ _ _ _ (by decide)]

theorem owner_mem_fill_defaults (t : RawTable) :
    Col.owner ∈ (fill_defaults t).cols := by
  simp only [fill_defaults]
  exact fillCol_cols_mono _ _ _ _ (fillCol_cols_mono _ _ _ _ (fillCol_cols_self _ _ _))

theorem leadSource_mem_fill_defaults (t : RawTable) :
    Col.leadSource ∈ (fill_defaults t).cols := by
  simp only [fill_defaults]
  exact fillCol_cols_mono _ _ _ _ (fillCol_cols_self _ _ _)

theorem interestStatus_mem_fill_defaults (t : RawTable) :
    Col.interestStatus ∈ (fill_defaults t).cols :=
  fillCol_cols_self _ _ _

theorem normalizeFill_owner (toDT : String → Option String) (r : Row) :
    (normalizeFill toDT r).owner = some (r.owner.getD DEFAULT_OWNER) := rfl

theorem normalizeFill_leadSource (toDT : String → Option String) (r : Row) :
    (normalizeFill toDT r).leadSource = some (r.leadSource.getD "Other") := rfl

theorem normalizeFill_interestStatus (toDT : String → Option String) (r : Row) :
    (normalizeFill toDT r).interestStatus = some (r.interestStatus.getD "N/A") := rfl

theorem dropKeep_normalizeFill (toDT : String → Option String) (r : Row) :
    dropKeep (normalizeFill toDT r) = dropKeep r := rfl

theorem mem_assignIds {l : List Row} {x : Row} (hx : x ∈ assignIds l) :
    ∃ r ∈ l, ∃ i : Int, x = { r with leadID := some i } := by
  rcases List.mem_map.mp hx with ⟨⟨i, r⟩, hir, rfl⟩
  exact ⟨r, List.getElem?_mem (List.mem_enum_iff_getElem?.mp hir),
    (i : Int) + 1, rfl⟩

theorem assignIds_filter_keys (l : List Row) :
    ((assignIds l).filter dropKeep).map (fun r => r.leadID.getD 0)
      = (l.enum.filter (fun p => dropKeep p.2)).map (fun p => ((p.1 : Int) + 1)) := by
  rw [assignIds, List.filter_map, List.map_map]
  rfl

/-! ## Claim about the dashboard KPIs -/

/-- C9: the conversion rate equals qualified/total times 100 where qualified
counts rows with Status exactly Qualified and total is the row count, and is 0
when total is 0; the 4-row scenario with Status New, Contacted, Qualified,
Sold yields total 4, contacted 1, qualified 1, sold 1 and rate 25. -/
theorem dashboard_conversion_rate (df : DataFrame) :
    (render_overall_dashboard_kpis df).total_leads = df.rows.length ∧
    (render_overall_dashboard_kpis df).qualified = countStatus df "Qualified" ∧
    (render_overall_dashboard_kpis df).conversion_rate =
      (if df.rows.length = 0 then 0 else
        ((countStatus df "Qualified" : Rat) / (df.rows.length : Rat)) * 100) ∧
    render_overall_dashboard_kpis exKpiDF =
      { total_leads := 4, contacted := 1, interested := 0, qualified := 1,
        sold := 1, conversion_rate := 25 } := by
  have hq : countStatus exKpiDF "Qualified" = 1 := by decide
  have hc : countStatus exKpiDF "Contacted" = 1 := by decide
  have hs : countStatus exKpiDF "Sold" = 1 := by decide
  have hi : (exKpiDF.rows.filter
      (fun p => decide (p.2.interestStatus = some "Interested"))).length = 0 := by decide
  have hl : exKpiDF.rows.length = 4 := by decide
  refine ⟨rfl, rfl, ?_, ?_⟩
  · by_cases h : df.rows.length = 0 <;>
      simp [render_overall_dashboard_kpis, h]
  · simp only [render_overall_dashboard_kpis, hq, hc, hs, hi, hl,
      DashboardKPIs.mk.injEq]
    norm_num

/-! ## Loader claims -/

/-- C6: every record missing FullName or Status is dropped by the loader, so
no record of the loaded working table has a null FullName or a null Status. -/
theorem loaded_rows_have_fullname_status (toDT : String → Option String)
    (store : Except String RawTable) :
    ∀ p ∈ (initialize_data toDT store).1.rows,
      p.2.fullName.isSome ∧ p.2.status.isSome := by
  intro p hp
  match store with
  | .error e => simp [initialize_data, emptyDF] at hp
  | .ok raw =>
    simp only [initialize_data] at hp
    split at hp
    · split at hp
      · split at hp
        · simp [emptyDF] at hp
        · rcases List.mem_map.mp hp with ⟨r, hr, rfl⟩
          have hk := (List.mem_filter.mp hr).2
          simp only [dropKeep, Bool.and_eq_true] at hk
          exact ⟨hk.1, hk.2⟩
      · rcases List.mem_map.mp hp with ⟨r, hr, rfl⟩
        have hk := (List.mem_filter.mp hr).2
        simp only [dropKeep, Bool.and_eq_true] at hk
        exact ⟨hk.1, hk.2⟩
    · simp [emptyDF] at hp

theorem loaded_rows_have_fullname_status_witness :
    exLoadedRow.2.fullName.isSome ∧ exLoadedRow.2.status.isSome :=
  loaded_rows_have_fullname_status some (.ok exRawClean) exLoadedRow (by decide)

/-- C7: in a successfully loaded table the columns Owner, LeadSource and
InterestStatus are present, and every record's value for them is non-null:
the value of the corresponding source record when it had one, its default
(Unassigned, Other, N/A respectively) when it was null or the column was
absent. -/
theorem loaded_defaults_filled (toDT : String → Option String) (raw : RawTable)
    (hok : (initialize_data toDT (.ok raw)).2 = none) :
    (Col.owner ∈ (initialize_data toDT (.ok raw)).1.cols ∧
     Col.leadSource ∈ (initialize_data toDT (.ok raw)).1.cols ∧
     Col.interestStatus ∈ (initialize_data toDT (.ok raw)).1.cols) ∧
    ∀ p ∈ (initialize_data toDT (.ok raw)).1.rows, ∃ r ∈ raw.rows,
      p.2.owner = some (r.owner.getD DEFAULT_OWNER) ∧
      p.2.leadSource = some (r.leadSource.getD "Other") ∧
      p.2.interestStatus = some (r.interestStatus.getD "N/A") := by
  simp only [initialize_data] at hok ⊢
  split at hok
  case isFalse hcd => simp at hok
  case isTrue hcd =>
    split at hok
    case isTrue hlid =>
      split at hok
      case isTrue hany => simp at hok
      case isFalse hany =>
        simp only [if_pos hcd, if_pos hlid, if_neg hany]
        refine ⟨⟨owner_mem_fill_defaults _, leadSource_mem_fill_defaults _,
          interestStatus_mem_fill_defaults _⟩, ?_⟩
        intro p hp
        rcases List.mem_map.mp hp with ⟨r, hr, rfl⟩
        have hmem : r ∈ (fill_defaults ⟨raw.cols, raw.rows.map (normalizeRow toDT)⟩).rows :=
          List.mem_of_mem_filter hr
        rw [fill_defaults_norm_rows] at hmem
        rcases List.mem_map.mp hmem with ⟨r0, hr0, rfl⟩
        exact ⟨r0, hr0, normalizeFill_owner toDT r0, normalizeFill_leadSource toDT r0,
          normalizeFill_interestStatus toDT r0⟩
    case isFalse hlid =>
      simp only [if_pos hcd, if_neg hlid]
      refine ⟨⟨List.mem_cons_of_mem _ (owner_mem_fill_defaults _),
        List.mem_cons_of_mem _ (leadSource_mem_fill_defaults _),
        List.mem_cons_of_mem _ (interestStatus_mem_fill_defaults _)⟩, ?_⟩
      intro p hp
      rcases List.mem_map.mp hp with ⟨r, hr, rfl⟩
      have hmem : r ∈ assignIds (fill_defaults ⟨raw.cols, raw.rows.map (normalizeRow toDT)⟩).rows :=
        List.mem_of_mem_filter hr
      rcases mem_assignIds hmem with ⟨q, hq, i, rfl⟩
      rw [fill_defaults_norm_rows] at hq
      rcases List.mem_map.mp hq with ⟨r0, hr0, rfl⟩
      exact ⟨r0, hr0, normalizeFill_owner toDT r0, normalizeFill_leadSource toDT r0,
        normalizeFill_interestStatus toDT r0⟩

theorem loaded_defaults_filled_witness :
    ∃ r ∈ exRawClean.rows,
      exLoadedRow.2.owner = some (r.owner.getD DEFAULT_OWNER) ∧
      exLoadedRow.2.leadSource = some (r.leadSource.getD "Other") ∧
      exLoadedRow.2.interestStatus = some (r.interestStatus.getD "N/A") :=
  (loaded_defaults_filled some exRawClean (by decide)).2 exLoadedRow (by decide)

/-- C5 counterexample: pre-existing duplicate LeadIDs survive the load
unchanged (keys 5, 5 load without error, so loaded LeadIDs are not always
unique), and when the loader reassigns IDs and a record is then dropped for a
missing FullName, the remaining loaded LeadIDs are 2 alone — not a dense
sequence starting at 1. -/
theorem loaded_ids_not_unique_dense_cex :
    (¬ (initialize_data some (.ok exRawDupIds)).1.keys.Nodup ∧
      (initialize_data some (.ok exRawDupIds)).2 = none) ∧
    ((initialize_data some (.ok exRawDropped)).1.keys = [2] ∧
      (initialize_data some (.ok exRawDropped)).2 = none) := by
  decide

/-- C5 amended: when the loader reassigns LeadIDs (the column is absent from
the store), the loaded LeadIDs are strictly increasing — hence unique — and
are a sublist of the dense sequence 1..n in original row order; they equal
that dense sequence exactly when no record is dropped. Pre-existing LeadIDs
are loaded as-is, with no uniqueness check. -/
theorem reassigned_ids_strictly_increasing (toDT : String → Option String)
    (raw : RawTable) (hcd : Col.createdDate ∈ raw.cols)
    (hld : Col.leadID ∉ raw.cols) :
    (initialize_data toDT (.ok raw)).1.keys.Pairwise (· < ·) ∧
    ((initialize_data toDT (.ok raw)).1.keys).Sublist
      ((List.range raw.rows.length).map (fun i : Nat => (i : Int) + 1)) ∧
    ((∀ r ∈ raw.rows, dropKeep r) →
      (initialize_data toDT (.ok raw)).1.keys =
        (List.range raw.rows.length).map (fun i : Nat => (i : Int) + 1)) := by
  have hld2 : Col.leadID ∉ (fill_defaults ⟨raw.cols, raw.rows.map (normalizeRow toDT)⟩).cols := by
    rw [leadID_mem_fill_defaults]
    exact hld
  have hkeys : (initialize_data toDT (.ok raw)).1.keys
      = ((fill_defaults ⟨raw.cols, raw.rows.map (normalizeRow toDT)⟩).rows.enum.filter
          (fun p => dropKeep p.2)).map (fun p => ((p.1 : Int) + 1)) := by
    simp only [initialize_data, if_pos hcd, if_neg hld2, DataFrame.keys,
      List.map_map]
    rw [show ((fun p : Int × Row => p.1) ∘ fun r : Row => (r.leadID.getD 0, r))
        = fun r : Row => r.leadID.getD 0 from rfl]
    exact assignIds_filter_keys _
  have hlen : (fill_defaults ⟨raw.cols, raw.rows.map (normalizeRow toDT)⟩).rows.length
      = raw.rows.length := by
    rw [fill_defaults_norm_rows, List.length_map]
  have hmapenum : (fill_defaults ⟨raw.cols, raw.rows.map (normalizeRow toDT)⟩).rows.enum.map
        (fun p => ((p.1 : Int) + 1))
      = (List.range raw.rows.length).map (fun i : Nat => (i : Int) + 1) := by
    rw [show (fun p : Nat × Row => ((p.1 : Int) + 1))
        = (fun i : Nat => (i : Int) + 1) ∘ Prod.fst from rfl]
    rw [← List.map_map, List.enum_map_fst, hlen]
  have hsubl : ((initialize_data toDT (.ok raw)).1.keys).Sublist
      ((List.range raw.rows.length).map (fun i : Nat => (i : Int) + 1)) := by
    rw [hkeys, ← hmapenum]
    exact List.Sublist.map _ (List.filter_sublist _)
  have hpwall : ((List.range raw.rows.length).map (fun i : Nat => (i : Int) + 1)).Pairwise
      (· < ·) :=
    List.Pairwise.map _ (fun a b h => by omega) (List.pairwise_lt_range _)
  refine ⟨List.Pairwise.sublist hsubl hpwall, hsubl, ?_⟩
  intro hall
  rw [hkeys, ← hmapenum]
  congr 1
  apply List.filter_eq_self.mpr
  intro p hp
  have hmem : p.2 ∈ (fill_defaults ⟨raw.cols, raw.rows.map (normalizeRow toDT)⟩).rows :=
    List.getElem?_mem (List.mem_enum_iff_getElem?.mp hp)
  rw [fill_defaults_norm_rows] at hmem
  rcases List.mem_map.mp hmem with ⟨r0, hr0, heq⟩
  rw [← heq, dropKeep_normalizeFill]
  exact hall r0 hr0

theorem reassigned_ids_strictly_increasing_witness :
    (initialize_data some (Except.ok exRawClean)).1.keys = [1, 2] := by
  have h := (reassigned_ids_strictly_increasing some exRawClean
    (by decide) (by decide)).2.2 (by decide)
  rw [h]
  decide

end HSRLeads
